import Mathlib

/-!
Verification of the alarmclock utility (src/alarmclock.py).

The Python source is shallowly embedded below:
* parse_target_time: the strptime cascade over six format strings, with
  Python's regex semantics for each directive (ordered alternation,
  first-match-then-full-consumption check).
* confirm_target_today: calendar date-time arithmetic on naive datetimes.
* play_sound: the playback fallback chain, with the environment
  (file existence, platform, which mechanism works) abstracted to a record.
* main: argument handling, the parse-error path, and the polling wait loop
  driven by a list of events (clock readings and interrupts).
-/

deriving instance DecidableEq for Except

namespace Alarmclock

/-- A parsed time of day: dt.time() restricted to the fields the program
uses (hour and minute; seconds and microseconds parse to 0 here). -/
structure TimeOfDay where
  hour : Nat
  minute : Nat
deriving DecidableEq, Repr

/-! ### The strptime embedding

Python's datetime.strptime compiles each format string to a regex and
matches it against the input.  The directives used by the source are
%I, %H, %M, %p, plus literal characters; a space in the format becomes
one-or-more whitespace.  The regex fragments (from CPython's _strptime):
  %I : 1[0-2] | 0[1-9] | [1-9]
  %H : 2[0-3] | [0-1][0-9] | [0-9]
  %M : [0-5][0-9] | [0-9]
  %p : AM | PM   (case-insensitive)
Alternatives are tried left to right with backtracking; re.match returns
the first overall match, and strptime then fails unless that match
consumed the whole input. -/

/-- Format-string tokens for the six formats the source uses. -/
inductive FmtTok where
  | lit (c : Char)
  | ws
  | hourI
  | hourH
  | minute
  | meridiem
deriving DecidableEq, Repr

/-- Captured groups during a match (defaults mirror strptime: hour 0,
minute 0, no meridiem). -/
structure Caps where
  hourI : Option Nat := none
  hourH : Option Nat := none
  minute : Option Nat := none
  isPM : Option Bool := none
deriving DecidableEq, Repr

/-- ASCII whitespace, the characters Python's regex \s and str.strip
treat as whitespace in the ASCII range. -/
def isSpaceChar (c : Char) : Bool :=
  c = ' ' || c = '\t' || c = '\n' || c = '\r' || c = '\x0b' || c = '\x0c'

def isDigitChar (c : Char) : Bool :=
  '0' ≤ c && c ≤ '9'

def digitVal (c : Char) : Nat :=
  c.toNat - '0'.toNat

/-- The alternatives a single directive can take on the input, in the
regex engine's preference order.  Each element is the updated capture
record paired with the remaining input. -/
def tokAlts (t : FmtTok) (caps : Caps) (cs : List Char) : List (Caps × List Char) :=
  match t with
  | .lit c =>
    match cs with
    | c0 :: rest => if c0 = c then [(caps, rest)] else []
    | [] => []
  | .ws =>
    let run := (cs.takeWhile isSpaceChar).length
    (List.range run).map (fun i => (caps, cs.drop (run - i)))
  | .hourI =>
    match cs with
    | c0 :: c1 :: rest =>
      (if c0 = '1' && ('0' ≤ c1 && c1 ≤ '2') then
        [({ caps with hourI := some (10 + digitVal c1) }, rest)] else []) ++
      (if c0 = '0' && ('1' ≤ c1 && c1 ≤ '9') then
        [({ caps with hourI := some (digitVal c1) }, rest)] else []) ++
      (if '1' ≤ c0 && c0 ≤ '9' then
        [({ caps with hourI := some (digitVal c0) }, c1 :: rest)] else [])
    | [c0] =>
      if '1' ≤ c0 && c0 ≤ '9' then
        [({ caps with hourI := some (digitVal c0) }, [])] else []
    | [] => []
  | .hourH =>
    match cs with
    | c0 :: c1 :: rest =>
      (if c0 = '2' && ('0' ≤ c1 && c1 ≤ '3') then
        [({ caps with hourH := some (20 + digitVal c1) }, rest)] else []) ++
      (if ('0' ≤ c0 && c0 ≤ '1') && isDigitChar c1 then
        [({ caps with hourH := some (10 * digitVal c0 + digitVal c1) }, rest)] else []) ++
      (if isDigitChar c0 then
        [({ caps with hourH := some (digitVal c0) }, c1 :: rest)] else [])
    | [c0] =>
      if isDigitChar c0 then
        [({ caps with hourH := some (digitVal c0) }, [])] else []
    | [] => []
  | .minute =>
    match cs with
    | c0 :: c1 :: rest =>
      (if ('0' ≤ c0 && c0 ≤ '5') && isDigitChar c1 then
        [({ caps with minute := some (10 * digitVal c0 + digitVal c1) }, rest)] else []) ++
      (if isDigitChar c0 then
        [({ caps with minute := some (digitVal c0) }, c1 :: rest)] else [])
    | [c0] =>
      if isDigitChar c0 then
        [({ caps with minute := some (digitVal c0) }, [])] else []
    | [] => []
  | .meridiem =>
    match cs with
    | c0 :: c1 :: rest =>
      if (c0 = 'A' || c0 = 'a') && (c1 = 'M' || c1 = 'm') then
        [({ caps with isPM := some false }, rest)]
      else if (c0 = 'P' || c0 = 'p') && (c1 = 'M' || c1 = 'm') then
        [({ caps with isPM := some true }, rest)]
      else []
    | _ => []

/-- First non-none element of a list of options: the value of a cascade
of attempts tried in order. -/
def firstSome {α : Type} : List (Option α) → Option α
  | [] => none
  | some a :: _ => some a
  | none :: rest => firstSome rest

/-- Backtracking matcher: the first (in preference order) way the whole
token list matches a prefix of the input, returning captures and leftover
input.  This is re.match on the compiled format regex. -/
def matchToks : List FmtTok → Caps → List Char → Option (Caps × List Char)
  | [], caps, cs => some (caps, cs)
  | t :: ts, caps, cs =>
    firstSome ((tokAlts t caps cs).map (fun p => matchToks ts p.1 p.2))

/-- strptime's post-processing of the hour: a %I capture is normalized
by the meridiem (12 AM between 0, PM adds 12 except at 12), a %H capture
is used as is, and a missing hour defaults to 0. -/
def capsHour (caps : Caps) : Nat :=
  match caps.hourI with
  | some h =>
    match caps.isPM with
    | some true => if h ≠ 12 then h + 12 else h
    | _ => if h = 12 then 0 else h
  | none => caps.hourH.getD 0

/-- One attempt of the source's loop body: datetime.strptime(timestr, fmt)
followed by .time(), as an Option.  The match must consume the whole
input (strptime raises otherwise). -/
def strptime_time (cs : List Char) (fmt : List FmtTok) : Option TimeOfDay :=
  match matchToks fmt {} cs with
  | some (caps, []) => some ⟨capsHour caps, caps.minute.getD 0⟩
  | _ => none

/-- The six format strings of the source, in order:
"%I:%M %p", "%I:%M%p", "%H:%M", "%H%M", "%I %p", "%I%M %p". -/
def parse_formats : List (List FmtTok) :=
  [ [.hourI, .lit ':', .minute, .ws, .meridiem],
    [.hourI, .lit ':', .minute, .meridiem],
    [.hourH, .lit ':', .minute],
    [.hourH, .minute],
    [.hourI, .ws, .meridiem],
    [.hourI, .minute, .ws, .meridiem] ]

/-- Python str.strip(): remove leading and trailing whitespace. -/
def pyStrip (s : String) : String :=
  String.mk (((s.toList.dropWhile isSpaceChar).reverse.dropWhile isSpaceChar).reverse)

/-- parse_target_time: strip, try the formats in order, return the first
success; raise ValueError mentioning the (stripped) string otherwise. -/
def parse_target_time (s : String) : Except String TimeOfDay :=
  let timestr := pyStrip s
  match firstSome (parse_formats.map (strptime_time timestr.toList)) with
  | some t => .ok t
  | none => .error ("Unrecognized time format: '" ++ timestr ++ "'")

/-! ### Naive datetimes

datetime.date and datetime.datetime with Python's lexicographic
comparison; datetime.now() is a parameter wherever the source calls it.
Microseconds are kept because datetime.now() produces them and the
candidate <= now comparison can be decided by them. -/

structure Date where
  year : Nat
  month : Nat
  day : Nat
deriving DecidableEq, Repr

structure Time where
  hour : Nat
  minute : Nat
  second : Nat
  microsecond : Nat
deriving DecidableEq, Repr

structure DateTime where
  date : Date
  time : Time
deriving DecidableEq, Repr

def Date.lt (a b : Date) : Prop :=
  a.year < b.year ∨ (a.year = b.year ∧
    (a.month < b.month ∨ (a.month = b.month ∧ a.day < b.day)))

def Time.lt (a b : Time) : Prop :=
  a.hour < b.hour ∨ (a.hour = b.hour ∧
    (a.minute < b.minute ∨ (a.minute = b.minute ∧
      (a.second < b.second ∨ (a.second = b.second ∧
        a.microsecond < b.microsecond)))))

def DateTime.lt (a b : DateTime) : Prop :=
  Date.lt a.date b.date ∨ (a.date = b.date ∧ Time.lt a.time b.time)

def DateTime.le (a b : DateTime) : Prop :=
  DateTime.lt a b ∨ a = b

instance (a b : Date) : Decidable (Date.lt a b) := by
  unfold Date.lt; infer_instance

instance (a b : Time) : Decidable (Time.lt a b) := by
  unfold Time.lt; infer_instance

instance (a b : DateTime) : Decidable (DateTime.lt a b) := by
  unfold DateTime.lt; infer_instance

instance (a b : DateTime) : Decidable (DateTime.le a b) := by
  unfold DateTime.le; infer_instance

/-- Gregorian leap year, as in Python's calendar. -/
def isLeap (y : Nat) : Bool :=
  y % 4 = 0 && (y % 100 ≠ 0 || y % 400 = 0)

def daysInMonth (y m : Nat) : Nat :=
  if m = 2 then (if isLeap y then 29 else 28)
  else if m = 4 ∨ m = 6 ∨ m = 9 ∨ m = 11 then 30
  else 31

/-- date + timedelta(days=1) on the date component: the next calendar
day. -/
def Date.next (d : Date) : Date :=
  if d.day < daysInMonth d.year d.month then ⟨d.year, d.month, d.day + 1⟩
  else if d.month < 12 then ⟨d.year, d.month + 1, 1⟩
  else ⟨d.year + 1, 1, 1⟩

/-- datetime.combine(now.date(), target_time): target_time carries
second 0 and microsecond 0 because strptime left them at their
defaults. -/
def combine (d : Date) (t : TimeOfDay) : DateTime :=
  ⟨d, ⟨t.hour, t.minute, 0, 0⟩⟩

/-- candidate + timedelta(days=1) for a naive datetime: same wall-clock
time, next calendar day. -/
def addOneDay (dt : DateTime) : DateTime :=
  ⟨Date.next dt.date, dt.time⟩

/-- confirm_target_today, with datetime.now() passed in as now. -/
def confirm_target_today (target_time : TimeOfDay) (now : DateTime) : DateTime :=
  let candidate := combine now.date target_time
  if DateTime.le candidate now then addOneDay candidate
  else candidate

/-! ### strftime "%Y-%m-%d %H:%M:%S" -/

/-- Two zero-padded decimal digits; agrees with strftime %m %d %H %M %S
for the values those fields take (below 100). -/
def pad2 (n : Nat) : List Char :=
  [Nat.digitChar (n / 10 % 10), Nat.digitChar (n % 10)]

/-- Four zero-padded decimal digits; agrees with strftime %Y for years
up to 9999 (the datetime range). -/
def pad4 (n : Nat) : List Char :=
  [Nat.digitChar (n / 1000 % 10), Nat.digitChar (n / 100 % 10),
   Nat.digitChar (n / 10 % 10), Nat.digitChar (n % 10)]

/-- The unpadded decimal rendering of a 12-hour-clock hour value 1-12,
used to build the "H:MM AM" and "H:MM PM" input shapes. -/
def hour12Digits (n : Nat) : List Char :=
  if n < 10 then [Nat.digitChar n] else ['1', Nat.digitChar (n - 10)]

/-- dt.strftime("%Y-%m-%d %H:%M:%S"). -/
def strftime (dt : DateTime) : String :=
  String.mk (pad4 dt.date.year ++ '-' :: pad2 dt.date.month ++ '-' :: pad2 dt.date.day
    ++ ' ' :: pad2 dt.time.hour ++ ':' :: pad2 dt.time.minute ++ ':' :: pad2 dt.time.second)

/-- The hour and minute component "HH:MM" of a "YYYY-MM-DD HH:MM:SS"
string: characters 11 to 15. -/
def hmComponent (s : String) : String :=
  String.mk ((s.toList.drop 11).take 5)

/-! ### play_sound

The environment the function probes (sys.platform, whether the expanded
path is an existing file, which playback mechanisms run without error)
is abstracted into a record; the function's control flow is embedded
unchanged. -/

inductive Platform where
  | darwin
  | linux
  | windows
  | other
deriving DecidableEq, Repr

structure SoundEnv where
  /-- os.path.isfile on the expanduser-expanded soundfile path. -/
  fileExists : Bool
  /-- the playsound import plus call completes without exception. -/
  playsoundOk : Bool
  platform : Platform
  afplayOk : Bool
  paplayOk : Bool
  aplayOk : Bool
  ffplayOk : Bool
  powershellOk : Bool
deriving DecidableEq, Repr

inductive PlayResult where
  /-- FileNotFoundError raised before any playback attempt. -/
  | fileNotFound
  /-- normal return after the named mechanism played the sound. -/
  | played (mechanism : String)
  /-- the final RuntimeError: no available playback method. -/
  | noMethod
deriving DecidableEq, Repr

/-- play_sound: result paired with the list of playback mechanisms
attempted, in order.  The platform tests are sequential in the source;
at most one of them can hold, so they are rendered as a cascade. -/
def play_sound (env : SoundEnv) : PlayResult × List String :=
  if env.fileExists = false then (.fileNotFound, [])
  else if env.playsoundOk then (.played "playsound", ["playsound"])
  else if env.platform = .darwin then
    if env.afplayOk then (.played "afplay", ["playsound", "afplay"])
    else (.noMethod, ["playsound", "afplay"])
  else if env.platform = .linux then
    if env.paplayOk then (.played "paplay", ["playsound", "paplay"])
    else if env.aplayOk then (.played "aplay", ["playsound", "paplay", "aplay"])
    else if env.ffplayOk then (.played "ffplay", ["playsound", "paplay", "aplay", "ffplay"])
    else (.noMethod, ["playsound", "paplay", "aplay", "ffplay"])
  else if env.platform = .windows then
    if env.powershellOk then (.played "powershell", ["playsound", "powershell"])
    else (.noMethod, ["playsound", "powershell"])
  else (.noMethod, ["playsound"])

/-- The fixed fallback order of playback mechanisms for a platform:
playsound first, then the platform's command-line players. -/
def attempt_order : Platform → List String
  | .darwin => ["playsound", "afplay"]
  | .linux => ["playsound", "paplay", "aplay", "ffplay"]
  | .windows => ["playsound", "powershell"]
  | .other => ["playsound"]

/-- Whether a mechanism succeeds in the given environment. -/
def succeeds (env : SoundEnv) : String → Bool
  | "playsound" => env.playsoundOk
  | "afplay" => env.afplayOk
  | "paplay" => env.paplayOk
  | "aplay" => env.aplayOk
  | "ffplay" => env.ffplayOk
  | "powershell" => env.powershellOk
  | _ => false

/-- Specification-side scan: try mechanisms in order, return on the
first that succeeds, fail when all are exhausted.  play_sound is proved
to refine this once the file-existence check has passed. -/
def try_in_order (env : SoundEnv) : List String → PlayResult × List String
  | [] => (.noMethod, [])
  | m :: ms =>
    if succeeds env m then (.played m, [m])
    else
      let r := try_in_order env ms
      (r.1, m :: r.2)

/-! ### main and the wait loop

Arguments and the pre-loop phase are a pure function of argv and of the
datetime.now() value; the loop itself is driven by a list of events,
each one either the datetime.now() reading of an iteration or a
KeyboardInterrupt delivered during the loop. -/

def DEFAULT_TIME : String := "7:00 AM"

def DEFAULT_SOUND : String := "alarm.aif"

structure Config where
  target_str : String
  soundfile : String
deriving DecidableEq, Repr

/-- The argv handling of main (args excludes the program name). -/
def readArgs (args : List String) : Config :=
  match args with
  | [] => ⟨DEFAULT_TIME, DEFAULT_SOUND⟩
  | [t] => ⟨t, DEFAULT_SOUND⟩
  | t :: s :: _ => ⟨t, s⟩

/-- Outcome of main before the wait loop: either the ValueError path
(printed lines, sys.exit code, no wait loop entered) or the armed state
(alarm datetime, sound path, printed lines). -/
inductive SetupResult where
  | parseError (printed : List String) (exitCode : Nat)
  | armed (alarm : DateTime) (soundfile : String) (printed : List String)
deriving DecidableEq, Repr

def format_help_line : String :=
  "Accepted formats: 7:00 AM, 07:00, 10:00 PM, 22:00, etc."

/-- main up to (but excluding) the wait loop. -/
def main_setup (args : List String) (now : DateTime) : SetupResult :=
  let cfg := readArgs args
  match parse_target_time cfg.target_str with
  | .error msg => .parseError ["Error: " ++ msg, format_help_line] 2
  | .ok target_time =>
    let alarm_dt := confirm_target_today target_time now
    .armed alarm_dt cfg.soundfile
      ["Alarm set for: " ++ strftime alarm_dt, "Sound file: " ++ cfg.soundfile]

/-- An event observed by the wait loop: the datetime.now() value of one
iteration, or a KeyboardInterrupt delivered while waiting. -/
inductive Event where
  | tick (now : DateTime)
  | interrupt
deriving DecidableEq, Repr

inductive RunOutcome where
  /-- sound played, "Done." printed, main returns (process exit 0). -/
  | done
  /-- play_sound raised; "Failed to play sound" printed, sys.exit(3). -/
  | playFailed
  /-- KeyboardInterrupt: "Alarm cancelled by user." printed, sys.exit(0). -/
  | cancelled
  /-- the event list ran out with the loop still waiting. -/
  | pending
deriving DecidableEq, Repr

/-- The exit status of the process for each way the loop can end. -/
def exit_code : RunOutcome → Option Nat
  | .done => some 0
  | .playFailed => some 3
  | .cancelled => some 0
  | .pending => none

/-- The wait loop of main: poll the clock; when now >= alarm_dt invoke
play_sound once and finish; a KeyboardInterrupt ends the loop with the
cancelled outcome.  Returns the outcome and the number of times
play_sound was invoked. -/
def wait_loop (alarm_dt : DateTime) (env : SoundEnv) : List Event → RunOutcome × Nat
  | [] => (.pending, 0)
  | .interrupt :: _ => (.cancelled, 0)
  | .tick now :: rest =>
    if DateTime.le alarm_dt now then
      match (play_sound env).1 with
      | .played _ => (.done, 1)
      | .fileNotFound => (.playFailed, 1)
      | .noMethod => (.playFailed, 1)
    else wait_loop alarm_dt env rest

/-! ### Ordering lemmas for the naive datetime model -/

theorem Date.lt_next (d : Date) : Date.lt d (Date.next d) := by
  rcases d with ⟨y, m, dy⟩
  unfold Date.next
  dsimp only
  by_cases h1 : dy < daysInMonth y m
  · rw [if_pos h1]
    exact Or.inr ⟨rfl, Or.inr ⟨rfl, Nat.lt_succ_self dy⟩⟩
  · rw [if_neg h1]
    by_cases h2 : m < 12
    · rw [if_pos h2]
      exact Or.inr ⟨rfl, Or.inl (Nat.lt_succ_self m)⟩
    · rw [if_neg h2]
      exact Or.inl (Nat.lt_succ_self y)

theorem DateTime.lt_of_not_le (a b : DateTime) (h : ¬ DateTime.le a b) :
    DateTime.lt b a := by
  rcases a with ⟨⟨y1, m1, d1⟩, ⟨h1, mi1, s1, u1⟩⟩
  rcases b with ⟨⟨y2, m2, d2⟩, ⟨h2, mi2, s2, u2⟩⟩
  simp only [DateTime.le, DateTime.lt, Date.lt, Time.lt, DateTime.mk.injEq,
    Date.mk.injEq, Time.mk.injEq] at h ⊢
  omega

theorem DateTime.not_le_of_lt (a b : DateTime) (h : DateTime.lt a b) :
    ¬ DateTime.le b a := by
  rcases a with ⟨⟨y1, m1, d1⟩, ⟨h1, mi1, s1, u1⟩⟩
  rcases b with ⟨⟨y2, m2, d2⟩, ⟨h2, mi2, s2, u2⟩⟩
  simp only [DateTime.le, DateTime.lt, Date.lt, Time.lt, DateTime.mk.injEq,
    Date.mk.injEq, Time.mk.injEq] at h ⊢
  omega

theorem DateTime.lt_of_date_lt (a b : DateTime) (h : Date.lt a.date b.date) :
    DateTime.lt a b :=
  Or.inl h

/-- The time component of the computed alarm instant is always the
target's hour and minute with seconds and microseconds 0. -/
theorem confirm_target_today_time (target : TimeOfDay) (now : DateTime) :
    (confirm_target_today target now).time = ⟨target.hour, target.minute, 0, 0⟩ := by
  unfold confirm_target_today
  by_cases h : DateTime.le (combine now.date target) now
  · rw [if_pos h]; rfl
  · rw [if_neg h]; rfl

/-! ### Lemmas about the first-success cascade -/

theorem firstSome_of_first_match {α : Type} :
    ∀ (l : List (Option α)) (i : Nat) (h : i < l.length) (a : α),
      (∀ j (hj : j < l.length), j < i → l.get ⟨j, hj⟩ = none) →
      l.get ⟨i, h⟩ = some a → firstSome l = some a := by
  intro l
  induction l with
  | nil => intro i h a _ _; exact absurd h (Nat.not_lt_zero i)
  | cons o rest ih =>
    intro i h a hb ha
    cases i with
    | zero =>
      have ho : o = some a := ha
      rw [ho]
      rfl
    | succ i2 =>
      have h0 : o = none := hb 0 (Nat.succ_pos rest.length) (Nat.succ_pos i2)
      subst h0
      show firstSome rest = some a
      exact ih i2 (Nat.lt_of_succ_lt_succ h) a
        (fun j hj hji => hb (j + 1) (Nat.succ_lt_succ hj) (Nat.succ_lt_succ hji)) ha

theorem firstSome_eq_none_iff {α : Type} (l : List (Option α)) :
    firstSome l = none ↔ ∀ o ∈ l, o = none := by
  induction l with
  | nil => simp [firstSome]
  | cons o rest ih =>
    cases o with
    | some a => simp [firstSome]
    | none => simpa [firstSome] using ih

/-! ### Claim theorems -/

/-- C1: for every target TimeOfDay and every instant now, the next
occurrence computed by confirm_target_today is strictly greater than
now. -/
theorem C1_next_occurrence_strictly_future (target : TimeOfDay) (now : DateTime) :
    DateTime.lt now (confirm_target_today target now) := by
  unfold confirm_target_today
  by_cases h : DateTime.le (combine now.date target) now
  · rw [if_pos h]
    exact DateTime.lt_of_date_lt now (addOneDay (combine now.date target))
      (Date.lt_next now.date)
  · rw [if_neg h]
    exact DateTime.lt_of_not_le (combine now.date target) now h

/-- C2: if combining now's date with the target hour and minute
(seconds 0) lies strictly after now, confirm_target_today returns that
combination unchanged; if the combination is less than or equal to now,
it returns the combination advanced by exactly one calendar day. -/
theorem C2_next_occurrence_cases (target : TimeOfDay) (now : DateTime) :
    (DateTime.lt now (combine now.date target) →
      confirm_target_today target now = combine now.date target) ∧
    (DateTime.le (combine now.date target) now →
      confirm_target_today target now = addOneDay (combine now.date target)) := by
  constructor
  · intro h
    unfold confirm_target_today
    rw [if_neg (DateTime.not_le_of_lt now (combine now.date target) h)]
  · intro h
    unfold confirm_target_today
    rw [if_pos h]

/-- Witness for C2, matching the two scenarios of the spec: with
now = 2024-01-01 06:00:00 and target 07:00 the alarm is same-day
2024-01-01 07:00:00; with now = 2024-01-01 08:00:00 it is next-day
2024-01-02 07:00:00. -/
theorem C2_next_occurrence_cases_witness :
    confirm_target_today ⟨7, 0⟩ ⟨⟨2024, 1, 1⟩, ⟨6, 0, 0, 0⟩⟩ =
      ⟨⟨2024, 1, 1⟩, ⟨7, 0, 0, 0⟩⟩ ∧
    confirm_target_today ⟨7, 0⟩ ⟨⟨2024, 1, 1⟩, ⟨8, 0, 0, 0⟩⟩ =
      ⟨⟨2024, 1, 2⟩, ⟨7, 0, 0, 0⟩⟩ :=
  ⟨(C2_next_occurrence_cases ⟨7, 0⟩ ⟨⟨2024, 1, 1⟩, ⟨6, 0, 0, 0⟩⟩).1 (by decide),
   (C2_next_occurrence_cases ⟨7, 0⟩ ⟨⟨2024, 1, 1⟩, ⟨8, 0, 0, 0⟩⟩).2 (by decide)⟩

/-- C3: the six accepted patterns are tried in the stated priority
order and the first pattern matching the whole input decides the
result; "07:00" and "7:00" both parse to 07:00, "22:00" to 22:00, and
"10:00 PM" also to 22:00, so all four results are equal. -/
theorem C3_parse_priority :
    (parse_target_time "07:00" = .ok ⟨7, 0⟩ ∧
     parse_target_time "7:00" = .ok ⟨7, 0⟩ ∧
     parse_target_time "22:00" = .ok ⟨22, 0⟩ ∧
     parse_target_time "10:00 PM" = .ok ⟨22, 0⟩) ∧
    ∀ (s : String) (i : Nat) (h : i < parse_formats.length) (t : TimeOfDay),
      (∀ j (hj : j < parse_formats.length), j < i →
        strptime_time (pyStrip s).toList (parse_formats.get ⟨j, hj⟩) = none) →
      strptime_time (pyStrip s).toList (parse_formats.get ⟨i, h⟩) = some t →
      parse_target_time s = .ok t := by
  constructor
  · exact ⟨by decide, by decide, by decide, by decide⟩
  · intro s i h t hb ha
    have hlen : (parse_formats.map (strptime_time (pyStrip s).toList)).length =
        parse_formats.length := List.length_map _ _
    have hfs : firstSome (parse_formats.map (strptime_time (pyStrip s).toList)) =
        some t := by
      apply firstSome_of_first_match _ i (by rw [hlen]; exact h) t
      · intro j hj hji
        rw [List.get_map]
        exact hb j (by rw [hlen] at hj; exact hj) hji
      · rw [List.get_map]
        exact ha
    simp only [parse_target_time]
    rw [hfs]

/-- Witness for C3: the third format (index 2, "%H:%M") is the first to
match "22:00", and the parser returns its result. -/
theorem C3_parse_priority_witness :
    parse_target_time "22:00" = .ok ⟨22, 0⟩ :=
  C3_parse_priority.2 "22:00" 2 (by decide) ⟨22, 0⟩ (by decide) (by decide)

/-- C5: inputs matching none of the six templates are rejected with the
ValueError; concretely "noon", "25:00" and "7:99 AM" fail, and in
general the parse fails exactly when every format fails on the stripped
input. -/
theorem C5_invalid_format :
    (parse_target_time "noon" = .error "Unrecognized time format: 'noon'" ∧
     parse_target_time "25:00" = .error "Unrecognized time format: '25:00'" ∧
     parse_target_time "7:99 AM" = .error "Unrecognized time format: '7:99 AM'") ∧
    ∀ s : String,
      (∀ f ∈ parse_formats, strptime_time (pyStrip s).toList f = none) ↔
      ∃ e, parse_target_time s = .error e := by
  constructor
  · exact ⟨by decide, by decide, by decide⟩
  · intro s
    constructor
    · intro hall
      refine ⟨"Unrecognized time format: '" ++ pyStrip s ++ "'", ?_⟩
      have hfs : firstSome (parse_formats.map (strptime_time (pyStrip s).toList)) =
          none := by
        rw [firstSome_eq_none_iff]
        intro o ho
        rcases List.mem_map.mp ho with ⟨f, hf, rfl⟩
        exact hall f hf
      simp only [parse_target_time]
      rw [hfs]
    · rintro ⟨e, he⟩
      have hfs : firstSome (parse_formats.map (strptime_time (pyStrip s).toList)) =
          none := by
        by_contra hne
        rcases Option.ne_none_iff_exists'.mp hne with ⟨t, ht⟩
        have hok : parse_target_time s = .ok t := by
          simp only [parse_target_time]
          rw [ht]
        rw [hok] at he
        exact Except.noConfusion he
      have hall := (firstSome_eq_none_iff _).mp hfs
      intro f hf
      exact hall _ (List.mem_map_of_mem _ hf)

/-- Witness for C5: all six formats fail on "noon", hence the parse
fails with the ValueError. -/
theorem C5_invalid_format_witness :
    ∃ e, parse_target_time "noon" = .error e :=
  (C5_invalid_format.2 "noon").mp (by decide)

/-- C4: every valid 12-hour string "H:MM AM" or "H:MM PM" with H in
1-12 and MM in 00-59 parses to the correctly normalized 24-hour
TimeOfDay: 12 AM maps to hour 0, 12 PM stays 12, and PM hours other
than 12 get 12 added; in particular "12:00 AM", "12:00 PM" and
"7:00 PM" give 00:00, 12:00 and 19:00. -/
theorem C4_12hour_normalization :
    (parse_target_time "12:00 AM" = .ok ⟨0, 0⟩ ∧
     parse_target_time "12:00 PM" = .ok ⟨12, 0⟩ ∧
     parse_target_time "7:00 PM" = .ok ⟨19, 0⟩) ∧
    ∀ (h : Fin 12) (m : Fin 60),
      parse_target_time
          (String.mk (hour12Digits (h.val + 1) ++ ':' :: pad2 m.val ++ ' ' :: ['A', 'M'])) =
        .ok ⟨if h.val + 1 = 12 then 0 else h.val + 1, m.val⟩ ∧
      parse_target_time
          (String.mk (hour12Digits (h.val + 1) ++ ':' :: pad2 m.val ++ ' ' :: ['P', 'M'])) =
        .ok ⟨if h.val + 1 = 12 then 12 else h.val + 1 + 12, m.val⟩ := by
  exact ⟨⟨by decide, by decide, by decide⟩, by decide⟩

/-- C6 counterexample: the ValueError message is built from the
stripped string, not the original input: for input " noon " the
message quotes "noon", not " noon ". -/
theorem C6_error_message_counterexample :
    parse_target_time " noon " = .error "Unrecognized time format: 'noon'" ∧
    "Unrecognized time format: 'noon'" ≠ "Unrecognized time format: ' noon '" :=
  ⟨by decide, by decide⟩

/-- C6 (amended): when the target time string fails to parse, the
ValueError carries the whitespace-stripped input string, and main
prints the error plus the format-help line and exits with code 2, never
reaching the armed state (hence never the wait loop). -/
theorem C6_parse_error_path (s : String) (rest : List String) (now : DateTime)
    (e : String) (h : parse_target_time s = .error e) :
    e = "Unrecognized time format: '" ++ pyStrip s ++ "'" ∧
    main_setup (s :: rest) now = .parseError ["Error: " ++ e, format_help_line] 2 := by
  have hmsg : e = "Unrecognized time format: '" ++ pyStrip s ++ "'" := by
    cases hfs : firstSome (parse_formats.map (strptime_time (pyStrip s).toList)) with
    | none =>
      have hp : parse_target_time s =
          .error ("Unrecognized time format: '" ++ pyStrip s ++ "'") := by
        simp only [parse_target_time]
        rw [hfs]
      rw [hp] at h
      injection h with h1
      exact h1.symm
    | some t =>
      have hp : parse_target_time s = .ok t := by
        simp only [parse_target_time]
        rw [hfs]
      rw [hp] at h
      exact Except.noConfusion h
  refine ⟨hmsg, ?_⟩
  have htarget : (readArgs (s :: rest)).target_str = s := by
    cases rest <;> rfl
  simp only [main_setup]
  rw [htarget, h]

/-- Witness for C6's amended theorem at the concrete failing input
"noon" passed as the single argument. -/
theorem C6_parse_error_path_witness :
    "Unrecognized time format: 'noon'" =
      "Unrecognized time format: '" ++ pyStrip "noon" ++ "'" ∧
    main_setup ["noon"] ⟨⟨2024, 1, 1⟩, ⟨0, 0, 0, 0⟩⟩ =
      .parseError ["Error: " ++ "Unrecognized time format: 'noon'", format_help_line] 2 :=
  C6_parse_error_path "noon" [] ⟨⟨2024, 1, 1⟩, ⟨0, 0, 0, 0⟩⟩
    "Unrecognized time format: 'noon'" (by decide)

/-- C7: a KeyboardInterrupt delivered during the wait loop before the
target instant is reached ends the loop with the cancelled outcome:
play_sound is never invoked and the process exits with code 0. -/
theorem C7_cancelled_before_target (alarm : DateTime) (env : SoundEnv)
    (ticks : List DateTime) (rest : List Event)
    (h : ∀ t ∈ ticks, DateTime.lt t alarm) :
    wait_loop alarm env (ticks.map Event.tick ++ Event.interrupt :: rest) =
      (.cancelled, 0) ∧
    exit_code .cancelled = some 0 := by
  refine ⟨?_, rfl⟩
  induction ticks with
  | nil => rfl
  | cons t ts ih =>
    have hnot : ¬ DateTime.le alarm t :=
      DateTime.not_le_of_lt t alarm (h t (List.mem_cons_self t ts))
    show wait_loop alarm env
      (Event.tick t :: (ts.map Event.tick ++ Event.interrupt :: rest)) = (.cancelled, 0)
    simp only [wait_loop]
    rw [if_neg hnot]
    exact ih (fun x hx => h x (List.mem_cons_of_mem t hx))

/-- Witness for C7: one clock poll at 06:59, still before the 07:00
alarm, then an interrupt. -/
theorem C7_cancelled_before_target_witness :
    wait_loop ⟨⟨2024, 1, 1⟩, ⟨7, 0, 0, 0⟩⟩ ⟨true, true, .linux, true, true, true, true, true⟩
      [Event.tick ⟨⟨2024, 1, 1⟩, ⟨6, 59, 0, 0⟩⟩, Event.interrupt] = (.cancelled, 0) ∧
    exit_code .cancelled = some 0 :=
  C7_cancelled_before_target ⟨⟨2024, 1, 1⟩, ⟨7, 0, 0, 0⟩⟩
    ⟨true, true, .linux, true, true, true, true, true⟩
    [⟨⟨2024, 1, 1⟩, ⟨6, 59, 0, 0⟩⟩] [] (by decide)

/-- C8: play_sound fails with FileNotFound exactly when the path is not
an existing file, and then no playback mechanism is attempted;
otherwise the mechanisms of the platform's fixed fallback order are
tried in order with the first success returned, NoPlaybackMethod
results exactly when the file exists but every mechanism fails, and a
playback failure at trigger time makes the process exit with code 3. -/
theorem C8_play_sound_contract :
    ∀ env : SoundEnv,
      (((play_sound env).1 = .fileNotFound ↔ env.fileExists = false) ∧
       (env.fileExists = false → (play_sound env).2 = []) ∧
       (env.fileExists = true →
         play_sound env = try_in_order env (attempt_order env.platform)) ∧
       ((play_sound env).1 = .noMethod ↔
         (env.fileExists = true ∧ ∀ m ∈ attempt_order env.platform, succeeds env m = false))) ∧
      (∀ (alarm now : DateTime) (rest : List Event),
        DateTime.le alarm now →
        ((play_sound env).1 = .fileNotFound ∨ (play_sound env).1 = .noMethod) →
        wait_loop alarm env (Event.tick now :: rest) = (.playFailed, 1) ∧
        exit_code .playFailed = some 3) := by
  intro env
  constructor
  · rcases env with ⟨fe, ps, pl, af, pa, al, ff, pw⟩
    cases fe <;> cases ps <;> cases pl <;> cases af <;> cases pa <;> cases al <;>
      cases ff <;> cases pw <;> decide
  · intro alarm now rest hle hfail
    refine ⟨?_, rfl⟩
    simp only [wait_loop]
    rw [if_pos hle]
    rcases hfail with hf | hf <;> rw [hf]

/-- Witness for C8: a missing file attempts nothing, and at trigger
time the process exits with code 3. -/
theorem C8_play_sound_contract_witness :
    (play_sound ⟨false, true, .linux, true, true, true, true, true⟩).2 = [] ∧
    wait_loop ⟨⟨2024, 1, 1⟩, ⟨7, 0, 0, 0⟩⟩ ⟨false, true, .linux, true, true, true, true, true⟩
      [Event.tick ⟨⟨2024, 1, 1⟩, ⟨7, 0, 0, 0⟩⟩] = (.playFailed, 1) ∧
    exit_code .playFailed = some 3 :=
  ⟨(C8_play_sound_contract ⟨false, true, .linux, true, true, true, true, true⟩).1.2.1 rfl,
   ((C8_play_sound_contract ⟨false, true, .linux, true, true, true, true, true⟩).2
      ⟨⟨2024, 1, 1⟩, ⟨7, 0, 0, 0⟩⟩ ⟨⟨2024, 1, 1⟩, ⟨7, 0, 0, 0⟩⟩ [] (by decide)
      (Or.inl (by decide))).1,
   ((C8_play_sound_contract ⟨false, true, .linux, true, true, true, true, true⟩).2
      ⟨⟨2024, 1, 1⟩, ⟨7, 0, 0, 0⟩⟩ ⟨⟨2024, 1, 1⟩, ⟨7, 0, 0, 0⟩⟩ [] (by decide)
      (Or.inl (by decide))).2⟩

/-- A zero-padded "HH:MM" string with a valid hour and minute parses
back to exactly that hour and minute (the "%H:%M" format is the first
to match it). -/
theorem parse_padded_hm :
    ∀ (h : Fin 24) (m : Fin 60),
      parse_target_time (String.mk (pad2 h.val ++ ':' :: pad2 m.val)) =
        .ok ⟨h.val, m.val⟩ := by
  decide

/-- C9: formatting the instant computed by confirm_target_today as
"YYYY-MM-DD HH:MM:SS" and re-parsing its hour and minute component
yields the original target TimeOfDay, whether or not a day was
added. -/
theorem C9_round_trip (target : TimeOfDay) (now : DateTime)
    (hh : target.hour < 24) (hm : target.minute < 60) :
    parse_target_time (hmComponent (strftime (confirm_target_today target now))) =
      .ok target := by
  have ht := confirm_target_today_time target now
  have hkey : hmComponent (strftime (confirm_target_today target now)) =
      String.mk (pad2 (confirm_target_today target now).time.hour ++ ':' ::
        pad2 (confirm_target_today target now).time.minute) := rfl
  rw [hkey, ht]
  exact parse_padded_hm ⟨target.hour, hh⟩ ⟨target.minute, hm⟩

/-- Witness for C9 at target 07:00 and now 2024-01-01 08:00:00 (the
day-added branch). -/
theorem C9_round_trip_witness :
    parse_target_time
        (hmComponent (strftime (confirm_target_today ⟨7, 0⟩ ⟨⟨2024, 1, 1⟩, ⟨8, 0, 0, 0⟩⟩))) =
      .ok ⟨7, 0⟩ :=
  C9_round_trip ⟨7, 0⟩ ⟨⟨2024, 1, 1⟩, ⟨8, 0, 0, 0⟩⟩ (by decide) (by decide)

/-- C10: a three-digit input "HMM" with a single hour digit 3-9 and a
valid minute is accepted: the first three formats all fail on it and
the fourth, the 24-hour no-colon format "%H%M", matches it, so the
parser returns hour H and minute MM rather than an error. -/
theorem C10_three_digit_hmm :
    ∀ (h : Fin 7) (m : Fin 60),
      parse_target_time (String.mk (Nat.digitChar (h.val + 3) :: pad2 m.val)) =
        .ok ⟨h.val + 3, m.val⟩ ∧
      (∀ j (hj : j < parse_formats.length), j < 3 →
        strptime_time (Nat.digitChar (h.val + 3) :: pad2 m.val)
          (parse_formats.get ⟨j, hj⟩) = none) ∧
      strptime_time (Nat.digitChar (h.val + 3) :: pad2 m.val)
        (parse_formats.get ⟨3, by decide⟩) = some ⟨h.val + 3, m.val⟩ := by
  decide

/-- Witness for C10 at the input "700". -/
theorem C10_three_digit_hmm_witness :
    parse_target_time "700" = .ok ⟨7, 0⟩ := by
  exact (C10_three_digit_hmm ⟨4, of_decide_eq_true rfl⟩ ⟨0, of_decide_eq_true rfl⟩).1

end Alarmclock
